import Mathlib

/-!
Shallow embedding of the district-heating backend (src/backend/app.py and
src/backend/models.py): an entity store for heat centers (supply points),
demand sites (demand points) and routes, a key/value configuration store,
the CRUD handlers and the three analytics views.  SQL floats are modelled
as rationals, datetimes as integer timestamps, and the auto-increment
primary keys as per-table counters.  Each HTTP handler becomes a total
function returning `Except ApiError`; a 404/400/422 `HTTPException` of the
code becomes an `ApiError` value carrying the same status code and detail
string.
-/

/- The batteries implementation of ℚ marks its arithmetic `@[irreducible]`,
which blocks `decide`-style evaluation of the concrete stores used below;
restore the ordinary reducibility of those operations. -/
set_option allowUnsafeReducibility true in
attribute [semireducible] Rat.add Rat.mul Rat.inv Rat.sub Rat.div Rat.ofScientific

/-- `models.RouteStatus`: the four-member status enum of a route. -/
inductive RouteStatus where
  | ACTIVE
  | INACTIVE
  | MAINTENANCE
  | PLANNED
  deriving Repr, DecidableEq

/-- `fastapi.HTTPException` as raised by the handlers: a status code plus a
detail string.  Framework-level request validation failures (422) are
modelled with the same shape. -/
structure ApiError where
  status_code : Nat
  detail : String
  deriving Repr, DecidableEq

/-- `models.HeatCenter` (table `heat_centers`): a supply point.  Column
types: floats as `ℚ`, datetimes as `Int`, nullable text/datetime columns as
`Option`.  `created_at` is server-assigned at insertion; `updated_at` is
null until the first mutating update (`onupdate=func.now()`). -/
structure HeatCenter where
  id : Int
  name : String
  location_lat : ℚ
  location_lng : ℚ
  address : Option String
  max_capacity_mw : ℚ
  current_output_mw : ℚ
  efficiency_percent : ℚ
  fuel_type : Option String
  is_active : Bool
  commissioning_date : Option Int
  last_maintenance : Option Int
  description : Option String
  created_at : Int
  updated_at : Option Int
  deriving Repr, DecidableEq

/-- `models.DemandSite` (table `demand_sites`): a demand point. -/
structure DemandSite where
  id : Int
  name : String
  location_lat : ℚ
  location_lng : ℚ
  address : Option String
  site_type : Option String
  peak_demand_mw : ℚ
  current_demand_mw : ℚ
  annual_consumption_mwh : Option ℚ
  is_connected : Bool
  connection_date : Option Int
  priority_level : Int
  floor_area_sqm : Option ℚ
  building_age_years : Option Int
  insulation_rating : Option String
  description : Option String
  created_at : Int
  updated_at : Option Int
  deriving Repr, DecidableEq

/-- `models.Route` (table `routes`): a pipeline from one heat center to one
demand site. -/
structure Route where
  id : Int
  heat_center_id : Int
  demand_site_id : Int
  distance_km : ℚ
  pipe_diameter_mm : Option Int
  max_flow_capacity_mw : ℚ
  current_flow_mw : ℚ
  supply_temp_celsius : ℚ
  return_temp_celsius : ℚ
  pressure_bar : ℚ
  heat_loss_percent : ℚ
  installation_year : Option Int
  pipe_material : Option String
  insulation_type : Option String
  status : RouteStatus
  is_bidirectional : Bool
  maintenance_due : Option Int
  construction_cost : Option ℚ
  annual_maintenance_cost : Option ℚ
  created_at : Int
  updated_at : Option Int
  deriving Repr, DecidableEq

/-- `models.SystemConfig` (table `system_config`): a typed key/value
configuration entry.  `is_active` has column default `True`. -/
structure SystemConfig where
  id : Int
  config_key : String
  config_value : String
  config_type : String
  description : Option String
  is_active : Bool
  created_at : Int
  updated_at : Option Int
  deriving Repr, DecidableEq

/-- The relational store backing the API: one list per table (in insertion
order, as returned by unordered queries on SQLite) plus the auto-increment
counter of each table's primary key. -/
structure Store where
  heatCenters : List HeatCenter
  demandSites : List DemandSite
  routes : List Route
  configs : List SystemConfig
  nextHeatCenterId : Int
  nextDemandSiteId : Int
  nextRouteId : Int
  nextConfigId : Int
  deriving Repr, DecidableEq

/-- The store produced by `Base.metadata.create_all` on a fresh database:
every table empty, every counter at 1. -/
def empty_store : Store :=
  { heatCenters := [], demandSites := [], routes := [], configs := [],
    nextHeatCenterId := 1, nextDemandSiteId := 1, nextRouteId := 1, nextConfigId := 1 }

/-- Python truthiness of an `Optional[int]` query parameter: `None` and `0`
are falsy (`if heat_center_id:` in `get_routes`). -/
def py_truthy_int_opt : Option Int → Bool
  | none => false
  | some v => v != 0

/-- Python truthiness of an `Optional[str]` parameter: `None` and the empty
string are falsy (`if site_type:` in `get_demand_sites`,
`if description:` in `set_config`). -/
def py_truthy_str_opt : Option String → Bool
  | none => false
  | some s => s != ""

/-- `str.lower()` restricted to the ASCII range, which covers the keyword
comparisons the code performs. -/
def py_lower (s : String) : String := s.map Char.toLower

/-- `HeatCenterCreate` (= `HeatCenterBase`): the POST /heat-centers body,
with the pydantic defaults of the optional fields. -/
structure HeatCenterCreate where
  name : String
  location_lat : ℚ
  location_lng : ℚ
  address : Option String := none
  max_capacity_mw : ℚ
  current_output_mw : ℚ := 0
  efficiency_percent : ℚ := 85
  fuel_type : Option String := none
  is_active : Bool := true
  commissioning_date : Option Int := none
  last_maintenance : Option Int := none
  description : Option String := none
  deriving Repr, DecidableEq

/-- `DemandSiteCreate` (= `DemandSiteBase`): the POST /demand-sites body. -/
structure DemandSiteCreate where
  name : String
  location_lat : ℚ
  location_lng : ℚ
  address : Option String := none
  site_type : Option String := none
  peak_demand_mw : ℚ
  current_demand_mw : ℚ := 0
  annual_consumption_mwh : Option ℚ := none
  is_connected : Bool := false
  connection_date : Option Int := none
  priority_level : Int := 1
  floor_area_sqm : Option ℚ := none
  building_age_years : Option Int := none
  insulation_rating : Option String := none
  description : Option String := none
  deriving Repr, DecidableEq

/-- `RouteCreate` (= `RouteBase`): the POST /routes body. -/
structure RouteCreate where
  heat_center_id : Int
  demand_site_id : Int
  distance_km : ℚ
  pipe_diameter_mm : Option Int := none
  max_flow_capacity_mw : ℚ
  current_flow_mw : ℚ := 0
  supply_temp_celsius : ℚ := 80
  return_temp_celsius : ℚ := 40
  pressure_bar : ℚ := 16
  heat_loss_percent : ℚ := 2
  installation_year : Option Int := none
  pipe_material : Option String := none
  insulation_type : Option String := none
  status : RouteStatus := RouteStatus.ACTIVE
  is_bidirectional : Bool := false
  maintenance_due : Option Int := none
  construction_cost : Option ℚ := none
  annual_maintenance_cost : Option ℚ := none
  deriving Repr, DecidableEq

/-- `HeatCenterUpdate`: the PUT /heat-centers/{id} body under
`dict(exclude_unset=True)` semantics — an outer `none` means the field was
absent from the request and is not applied; for columns that are nullable
in the entity the inner layer is again an `Option`. -/
structure HeatCenterUpdate where
  name : Option String := none
  location_lat : Option ℚ := none
  location_lng : Option ℚ := none
  address : Option (Option String) := none
  max_capacity_mw : Option ℚ := none
  current_output_mw : Option ℚ := none
  efficiency_percent : Option ℚ := none
  fuel_type : Option (Option String) := none
  is_active : Option Bool := none
  commissioning_date : Option (Option Int) := none
  last_maintenance : Option (Option Int) := none
  description : Option (Option String) := none
  deriving Repr, DecidableEq

/-- `DemandSiteUpdate`: the PUT /demand-sites/{id} body, as above. -/
structure DemandSiteUpdate where
  name : Option String := none
  location_lat : Option ℚ := none
  location_lng : Option ℚ := none
  address : Option (Option String) := none
  site_type : Option (Option String) := none
  peak_demand_mw : Option ℚ := none
  current_demand_mw : Option ℚ := none
  annual_consumption_mwh : Option (Option ℚ) := none
  is_connected : Option Bool := none
  connection_date : Option (Option Int) := none
  priority_level : Option Int := none
  floor_area_sqm : Option (Option ℚ) := none
  building_age_years : Option (Option Int) := none
  insulation_rating : Option (Option String) := none
  description : Option (Option String) := none
  deriving Repr, DecidableEq

/-- Replace the first element satisfying `p` by `new` (an in-place ORM
mutation of the record returned by `.first()`). -/
def replace_first (p : α → Bool) (new : α) : List α → List α
  | [] => []
  | x :: rest => if p x then new :: rest else x :: replace_first p new rest

/-- FastAPI validation of the pagination query parameters
`skip: int = Query(0, ge=0)` and `limit: int = Query(100, ge=1, le=1000)`:
a value outside its declared bounds is rejected with a 422 validation
error before the handler runs — the framework never clamps. -/
def validate_pagination (skip limit : Int) : Except ApiError Unit :=
  if skip < 0 then .error { status_code := 422, detail := "skip: Input should be greater than or equal to 0" }
  else if limit < 1 then .error { status_code := 422, detail := "limit: Input should be greater than or equal to 1" }
  else if 1000 < limit then .error { status_code := 422, detail := "limit: Input should be less than or equal to 1000" }
  else .ok ()

/-- `GET /heat-centers` (`get_heat_centers`). -/
def get_heat_centers (db : Store) (skip limit : Int) (active_only : Bool) :
    Except ApiError (List HeatCenter) := do
  let _ ← validate_pagination skip limit
  let query := db.heatCenters
  let query := if active_only then query.filter (·.is_active) else query
  pure ((query.drop skip.toNat).take limit.toNat)

/-- `POST /heat-centers` (`create_heat_center`): inserts a row built from
the request body, with a fresh id and a server-assigned `created_at`. -/
def create_heat_center (db : Store) (center : HeatCenterCreate) (now : Int) :
    HeatCenter × Store :=
  let db_center : HeatCenter :=
    { id := db.nextHeatCenterId, name := center.name,
      location_lat := center.location_lat, location_lng := center.location_lng,
      address := center.address, max_capacity_mw := center.max_capacity_mw,
      current_output_mw := center.current_output_mw,
      efficiency_percent := center.efficiency_percent,
      fuel_type := center.fuel_type, is_active := center.is_active,
      commissioning_date := center.commissioning_date,
      last_maintenance := center.last_maintenance,
      description := center.description,
      created_at := now, updated_at := none }
  (db_center,
   { db with heatCenters := db.heatCenters ++ [db_center],
             nextHeatCenterId := db.nextHeatCenterId + 1 })

/-- `GET /heat-centers/{center_id}` (`get_heat_center`). -/
def get_heat_center (db : Store) (center_id : Int) : Except ApiError HeatCenter :=
  match db.heatCenters.find? (·.id == center_id) with
  | none => .error { status_code := 404, detail := "Heat center not found" }
  | some center => .ok center

/-- The `setattr` loop of `update_heat_center` over
`center_update.dict(exclude_unset=True)`: each supplied field overwrites
the column, each absent field is left untouched. -/
def apply_heat_center_update (center : HeatCenter) (u : HeatCenterUpdate) : HeatCenter :=
  { center with
    name := u.name.getD center.name,
    location_lat := u.location_lat.getD center.location_lat,
    location_lng := u.location_lng.getD center.location_lng,
    address := u.address.getD center.address,
    max_capacity_mw := u.max_capacity_mw.getD center.max_capacity_mw,
    current_output_mw := u.current_output_mw.getD center.current_output_mw,
    efficiency_percent := u.efficiency_percent.getD center.efficiency_percent,
    fuel_type := u.fuel_type.getD center.fuel_type,
    is_active := u.is_active.getD center.is_active,
    commissioning_date := u.commissioning_date.getD center.commissioning_date,
    last_maintenance := u.last_maintenance.getD center.last_maintenance,
    description := u.description.getD center.description }

/-- `PUT /heat-centers/{center_id}` (`update_heat_center`).  The
`onupdate=func.now()` column hook fires only when the flush emits an
UPDATE for the row; the ORM's unit of work performs per-attribute
net-change detection at flush, so a partial update all of whose supplied
values equal the stored ones emits no UPDATE and leaves the row — in
particular `updated_at` — unchanged. -/
def update_heat_center (db : Store) (center_id : Int) (u : HeatCenterUpdate)
    (now : Int) : Except ApiError (HeatCenter × Store) :=
  match db.heatCenters.find? (·.id == center_id) with
  | none => .error { status_code := 404, detail := "Heat center not found" }
  | some center =>
    let updated := apply_heat_center_update center u
    let updated := if updated = center then updated
                   else { updated with updated_at := some now }
    .ok (updated,
         { db with heatCenters := replace_first (·.id == center_id) updated db.heatCenters })

/-- `DELETE /heat-centers/{center_id}` (`delete_heat_center`): 404 when the
id does not resolve, 400 when any route references the center, otherwise
the row found by `.first()` is deleted. -/
def delete_heat_center (db : Store) (center_id : Int) :
    Except ApiError (String × Store) :=
  match db.heatCenters.find? (·.id == center_id) with
  | none => .error { status_code := 404, detail := "Heat center not found" }
  | some _ =>
    let active_routes := (db.routes.filter (·.heat_center_id == center_id)).length
    if active_routes > 0 then
      .error { status_code := 400, detail := "Cannot delete heat center with active routes" }
    else
      .ok ("Heat center deleted successfully",
           { db with heatCenters := db.heatCenters.eraseP (·.id == center_id) })

/-- `GET /demand-sites` (`get_demand_sites`): note the `if site_type:`
truthiness test — an empty string applies no filter. -/
def get_demand_sites (db : Store) (skip limit : Int) (connected_only : Bool)
    (site_type : Option String) : Except ApiError (List DemandSite) := do
  let _ ← validate_pagination skip limit
  let query := db.demandSites
  let query := if connected_only then query.filter (·.is_connected) else query
  let query :=
    if py_truthy_str_opt site_type then
      query.filter (fun (s : DemandSite) => s.site_type == site_type)
    else query
  pure ((query.drop skip.toNat).take limit.toNat)

/-- `POST /demand-sites` (`create_demand_site`). -/
def create_demand_site (db : Store) (site : DemandSiteCreate) (now : Int) :
    DemandSite × Store :=
  let db_site : DemandSite :=
    { id := db.nextDemandSiteId, name := site.name,
      location_lat := site.location_lat, location_lng := site.location_lng,
      address := site.address, site_type := site.site_type,
      peak_demand_mw := site.peak_demand_mw,
      current_demand_mw := site.current_demand_mw,
      annual_consumption_mwh := site.annual_consumption_mwh,
      is_connected := site.is_connected, connection_date := site.connection_date,
      priority_level := site.priority_level, floor_area_sqm := site.floor_area_sqm,
      building_age_years := site.building_age_years,
      insulation_rating := site.insulation_rating, description := site.description,
      created_at := now, updated_at := none }
  (db_site,
   { db with demandSites := db.demandSites ++ [db_site],
             nextDemandSiteId := db.nextDemandSiteId + 1 })

/-- `GET /demand-sites/{site_id}` (`get_demand_site`). -/
def get_demand_site (db : Store) (site_id : Int) : Except ApiError DemandSite :=
  match db.demandSites.find? (·.id == site_id) with
  | none => .error { status_code := 404, detail := "Demand site not found" }
  | some site => .ok site

/-- The `setattr` loop of `update_demand_site`. -/
def apply_demand_site_update (site : DemandSite) (u : DemandSiteUpdate) : DemandSite :=
  { site with
    name := u.name.getD site.name,
    location_lat := u.location_lat.getD site.location_lat,
    location_lng := u.location_lng.getD site.location_lng,
    address := u.address.getD site.address,
    site_type := u.site_type.getD site.site_type,
    peak_demand_mw := u.peak_demand_mw.getD site.peak_demand_mw,
    current_demand_mw := u.current_demand_mw.getD site.current_demand_mw,
    annual_consumption_mwh := u.annual_consumption_mwh.getD site.annual_consumption_mwh,
    is_connected := u.is_connected.getD site.is_connected,
    connection_date := u.connection_date.getD site.connection_date,
    priority_level := u.priority_level.getD site.priority_level,
    floor_area_sqm := u.floor_area_sqm.getD site.floor_area_sqm,
    building_age_years := u.building_age_years.getD site.building_age_years,
    insulation_rating := u.insulation_rating.getD site.insulation_rating,
    description := u.description.getD site.description }

/-- `PUT /demand-sites/{site_id}` (`update_demand_site`), with the same
flush-time net-change condition on the `updated_at` stamp as
`update_heat_center`. -/
def update_demand_site (db : Store) (site_id : Int) (u : DemandSiteUpdate)
    (now : Int) : Except ApiError (DemandSite × Store) :=
  match db.demandSites.find? (·.id == site_id) with
  | none => .error { status_code := 404, detail := "Demand site not found" }
  | some site =>
    let updated := apply_demand_site_update site u
    let updated := if updated = site then updated
                   else { updated with updated_at := some now }
    .ok (updated,
         { db with demandSites := replace_first (·.id == site_id) updated db.demandSites })

/-- `DELETE /demand-sites/{site_id}` (`delete_demand_site`). -/
def delete_demand_site (db : Store) (site_id : Int) :
    Except ApiError (String × Store) :=
  match db.demandSites.find? (·.id == site_id) with
  | none => .error { status_code := 404, detail := "Demand site not found" }
  | some _ =>
    let active_routes := (db.routes.filter (·.demand_site_id == site_id)).length
    if active_routes > 0 then
      .error { status_code := 400, detail := "Cannot delete demand site with active routes" }
    else
      .ok ("Demand site deleted successfully",
           { db with demandSites := db.demandSites.eraseP (·.id == site_id) })

/-- `GET /routes` (`get_routes`): the `status` parameter is an enum whose
members are all truthy, so `if status:` filters exactly when it is
present; `heat_center_id`/`demand_site_id` use integer truthiness, so `0`
applies no filter. -/
def get_routes (db : Store) (skip limit : Int) (status : Option RouteStatus)
    (heat_center_id demand_site_id : Option Int) :
    Except ApiError (List Route) := do
  let _ ← validate_pagination skip limit
  let query := db.routes
  let query :=
    match status with
    | some st => query.filter (fun (r : Route) => r.status == st)
    | none => query
  let query :=
    if py_truthy_int_opt heat_center_id then
      query.filter (fun (r : Route) => some r.heat_center_id == heat_center_id)
    else query
  let query :=
    if py_truthy_int_opt demand_site_id then
      query.filter (fun (r : Route) => some r.demand_site_id == demand_site_id)
    else query
  pure ((query.drop skip.toNat).take limit.toNat)

/-- `POST /routes` (`create_route`): verifies the two endpoint ids resolve
(404 naming the missing one, heat center checked first), rejects a
duplicate (heat_center_id, demand_site_id) pair with 400, and otherwise
inserts the new route. -/
def create_route (db : Store) (route : RouteCreate) (now : Int) :
    Except ApiError (Route × Store) :=
  match db.heatCenters.find? (·.id == route.heat_center_id) with
  | none => .error { status_code := 404, detail := "Heat center not found" }
  | some _ =>
  match db.demandSites.find? (·.id == route.demand_site_id) with
  | none => .error { status_code := 404, detail := "Demand site not found" }
  | some _ =>
  match db.routes.find? (fun r =>
      r.heat_center_id == route.heat_center_id &&
      r.demand_site_id == route.demand_site_id) with
  | some _ => .error { status_code := 400, detail := "Route already exists between these locations" }
  | none =>
    let db_route : Route :=
      { id := db.nextRouteId,
        heat_center_id := route.heat_center_id,
        demand_site_id := route.demand_site_id,
        distance_km := route.distance_km,
        pipe_diameter_mm := route.pipe_diameter_mm,
        max_flow_capacity_mw := route.max_flow_capacity_mw,
        current_flow_mw := route.current_flow_mw,
        supply_temp_celsius := route.supply_temp_celsius,
        return_temp_celsius := route.return_temp_celsius,
        pressure_bar := route.pressure_bar,
        heat_loss_percent := route.heat_loss_percent,
        installation_year := route.installation_year,
        pipe_material := route.pipe_material,
        insulation_type := route.insulation_type,
        status := route.status,
        is_bidirectional := route.is_bidirectional,
        maintenance_due := route.maintenance_due,
        construction_cost := route.construction_cost,
        annual_maintenance_cost := route.annual_maintenance_cost,
        created_at := now, updated_at := none }
    .ok (db_route,
         { db with routes := db.routes ++ [db_route],
                   nextRouteId := db.nextRouteId + 1 })

/-- `GET /routes/{route_id}` (`get_route`). -/
def get_route (db : Store) (route_id : Int) : Except ApiError Route :=
  match db.routes.find? (·.id == route_id) with
  | none => .error { status_code := 404, detail := "Route not found" }
  | some route => .ok route

/-- `DELETE /routes/{route_id}` (`delete_route`): unconditional removal
once the id resolves. -/
def delete_route (db : Store) (route_id : Int) :
    Except ApiError (String × Store) :=
  match db.routes.find? (·.id == route_id) with
  | none => .error { status_code := 404, detail := "Route not found" }
  | some _ =>
    .ok ("Route deleted successfully",
         { db with routes := db.routes.eraseP (·.id == route_id) })

/-- Floor of a rational, computed on the normalized numerator/denominator. -/
def rat_floor (q : ℚ) : ℤ := q.num.fdiv q.den

/-- Python `round(x, 2)`: rounding to two decimal places, modelled over ℚ
as floor(100x + 1/2)/100 (the half-way tie-break mode of float `round` is
unobservable on the values this code produces). -/
def round2 (q : ℚ) : ℚ := ((rat_floor (q * 100 + 1 / 2) : ℤ) : ℚ) / 100

/-- `func.sum(HeatCenter.max_capacity_mw)` with the `or 0` None-coalesce of
the handler (SQL SUM of an empty table is NULL). -/
def total_capacity_sum (db : Store) : ℚ := (db.heatCenters.map (·.max_capacity_mw)).sum

/-- `func.sum(HeatCenter.current_output_mw)` with `or 0`. -/
def current_output_sum (db : Store) : ℚ := (db.heatCenters.map (·.current_output_mw)).sum

/-- `func.sum(DemandSite.peak_demand_mw)` with `or 0`. -/
def total_demand_sum (db : Store) : ℚ := (db.demandSites.map (·.peak_demand_mw)).sum

/-- `func.sum(DemandSite.current_demand_mw)` with `or 0`. -/
def current_demand_sum (db : Store) : ℚ := (db.demandSites.map (·.current_demand_mw)).sum

/-- `func.sum(Route.distance_km)` with `or 0`. -/
def total_pipeline_sum (db : Store) : ℚ := (db.routes.map (·.distance_km)).sum

/-- The JSON object returned by `GET /analytics/overview`, flattened
(`heat_centers.total` becomes `total_heat_centers`, etc.). -/
structure AnalyticsOverview where
  total_heat_centers : Nat
  active_heat_centers : Nat
  total_demand_sites : Nat
  connected_demand_sites : Nat
  total_routes : Nat
  active_routes : Nat
  total_generation_capacity_mw : ℚ
  current_generation_mw : ℚ
  capacity_utilization_percent : ℚ
  total_peak_demand_mw : ℚ
  current_demand_mw : ℚ
  demand_coverage_percent : ℚ
  total_pipeline_km : ℚ
  average_route_distance_km : ℚ
  deriving Repr, DecidableEq

/-- `GET /analytics/overview` (`get_analytics_overview`). -/
def get_analytics_overview (db : Store) : AnalyticsOverview :=
  let total_capacity := total_capacity_sum db
  let current_output := current_output_sum db
  let total_demand := total_demand_sum db
  let current_demand := current_demand_sum db
  let total_pipeline_km := total_pipeline_sum db
  let total_routes := db.routes.length
  { total_heat_centers := db.heatCenters.length,
    active_heat_centers := (db.heatCenters.filter (·.is_active)).length,
    total_demand_sites := db.demandSites.length,
    connected_demand_sites := (db.demandSites.filter (·.is_connected)).length,
    total_routes := total_routes,
    active_routes := (db.routes.filter (·.status == RouteStatus.ACTIVE)).length,
    total_generation_capacity_mw := total_capacity,
    current_generation_mw := current_output,
    capacity_utilization_percent :=
      round2 (if total_capacity > 0 then current_output / total_capacity * 100 else 0),
    total_peak_demand_mw := total_demand,
    current_demand_mw := current_demand,
    demand_coverage_percent :=
      round2 (if total_demand > 0 then total_capacity / total_demand * 100 else 0),
    total_pipeline_km := total_pipeline_km,
    average_route_distance_km :=
      if total_routes > 0 then round2 (total_pipeline_km / total_routes) else 0 }

/-- The `performance` block of `GET /analytics/heat-center/{id}`, together
with the filtered route list the other blocks are derived from. -/
structure HeatCenterAnalytics where
  center : HeatCenter
  capacity_utilization_percent : ℚ
  connected_demand_mw : ℚ
  number_of_routes : Nat
  routes : List Route
  deriving Repr, DecidableEq

/-- `GET /analytics/heat-center/{center_id}` (`get_heat_center_analytics`). -/
def get_heat_center_analytics (db : Store) (center_id : Int) :
    Except ApiError HeatCenterAnalytics :=
  match db.heatCenters.find? (·.id == center_id) with
  | none => .error { status_code := 404, detail := "Heat center not found" }
  | some center =>
    let routes := db.routes.filter (·.heat_center_id == center_id)
    let connected_demand := (routes.map (·.current_flow_mw)).sum
    .ok { center := center,
          capacity_utilization_percent :=
            round2 (if center.max_capacity_mw > 0
                    then center.current_output_mw / center.max_capacity_mw * 100 else 0),
          connected_demand_mw := connected_demand,
          number_of_routes := routes.length,
          routes := routes }

/-- The `supply` block of `GET /analytics/demand-site/{id}` with its route
list. -/
structure DemandSiteAnalytics where
  site : DemandSite
  total_supply_capacity_mw : ℚ
  current_supply_mw : ℚ
  demand_coverage_percent : ℚ
  current_utilization_percent : ℚ
  routes : List Route
  deriving Repr, DecidableEq

/-- `GET /analytics/demand-site/{site_id}` (`get_demand_site_analytics`). -/
def get_demand_site_analytics (db : Store) (site_id : Int) :
    Except ApiError DemandSiteAnalytics :=
  match db.demandSites.find? (·.id == site_id) with
  | none => .error { status_code := 404, detail := "Demand site not found" }
  | some site =>
    let routes := db.routes.filter (·.demand_site_id == site_id)
    let total_supply_capacity := (routes.map (·.max_flow_capacity_mw)).sum
    let current_supply := (routes.map (·.current_flow_mw)).sum
    .ok { site := site,
          total_supply_capacity_mw := total_supply_capacity,
          current_supply_mw := current_supply,
          demand_coverage_percent :=
            round2 (if site.peak_demand_mw > 0
                    then total_supply_capacity / site.peak_demand_mw * 100 else 0),
          current_utilization_percent :=
            round2 (if site.peak_demand_mw > 0
                    then site.current_demand_mw / site.peak_demand_mw * 100 else 0),
          routes := routes }

/-- A parsed JSON document, as produced by the standard library loader. -/
inductive JsonValue where
  | null
  | bool (b : Bool)
  | num (q : ℚ)
  | str (s : String)
  | arr (xs : List JsonValue)
  | obj (fields : List (String × JsonValue))
  deriving Repr

/-- The typed value placed into the config mapping after on-read coercion
(`int` / `float` / `bool` / parsed json / raw string). -/
inductive ConfigValue where
  | str (s : String)
  | int (n : Int)
  | float (q : ℚ)
  | bool (b : Bool)
  | json (j : JsonValue)
  deriving Repr

/-- The Python standard-library conversions `get_config` calls: `int(...)`,
`float(...)` and `json.loads(...)`.  They are external library code, not
part of this repository, so the embedding takes them as parameters; a
`none` result stands for the `ValueError`/`JSONDecodeError` they raise on
malformed input. -/
structure PyRuntime where
  py_int : String → Option Int
  py_float : String → Option ℚ
  json_loads : String → Option JsonValue

/-- The body of the per-entry loop of `get_config`: dispatch on
`config_type` with `int`/`float`/`boolean`/`json` branches; any other type
tag falls through and the stored string is kept verbatim.  A conversion
failure propagates (the request raises). -/
def coerce_config_value (rt : PyRuntime) (config_type config_value : String) :
    Except ApiError ConfigValue :=
  if config_type = "integer" then
    match rt.py_int config_value with
    | some n => .ok (.int n)
    | none => .error { status_code := 500, detail := "ValueError" }
  else if config_type = "float" then
    match rt.py_float config_value with
    | some q => .ok (.float q)
    | none => .error { status_code := 500, detail := "ValueError" }
  else if config_type = "boolean" then
    .ok (.bool (["true", "1", "yes", "on"].contains (py_lower config_value)))
  else if config_type = "json" then
    match rt.json_loads config_value with
    | some j => .ok (.json j)
    | none => .error { status_code := 500, detail := "JSONDecodeError" }
  else
    .ok (.str config_value)

/-- `config_dict[key] = value` on a Python dict modelled as an association
list: overwrite in place when the key exists, append otherwise. -/
def dict_set (d : List (String × ConfigValue)) (k : String) (v : ConfigValue) :
    List (String × ConfigValue) :=
  if d.any (fun kv => kv.1 == k) then
    d.map (fun kv => if kv.1 == k then (k, v) else kv)
  else
    d ++ [(k, v)]

/-- The hard-coded default map settings returned when no active config
entries exist. -/
def default_map_config : List (String × ConfigValue) :=
  [("default_zoom", .int 10),
   ("center_lat", .float (593293 / 10000)),
   ("center_lng", .float (180686 / 10000)),
   ("heat_center_icon", .str "power-plant"),
   ("demand_site_icon", .str "building"),
   ("route_color", .str "#ff4444"),
   ("route_width", .int 3),
   ("max_zoom", .int 18),
   ("min_zoom", .int 5)]

/-- `GET /config` (`get_config`): coerce every active entry in table order,
then substitute the default display settings when the mapping is empty. -/
def get_config (rt : PyRuntime) (db : Store) :
    Except ApiError (List (String × ConfigValue)) := do
  let configs := db.configs.filter (·.is_active)
  let config_dict ← configs.foldlM
    (fun d config => do
      let value ← coerce_config_value rt config.config_type config.config_value
      pure (dict_set d config.config_key value))
    []
  if config_dict.isEmpty then
    pure default_map_config
  else
    pure config_dict

/-- The value-column image of a config overwrite: `config_value` and
`config_type` are assigned unconditionally, `description` only under
`if description:`, i.e. when the supplied description is truthy. -/
def overwritten_config (config : SystemConfig)
    (config_value config_type : String) (description : Option String) :
    SystemConfig :=
  { config with
    config_value := config_value,
    config_type := config_type,
    description := if py_truthy_str_opt description then description
                   else config.description }

/-- `POST /config` (`set_config`): upsert on `config_key`.  On an existing
entry the value columns are assigned per `overwritten_config`; the
`onupdate=func.now()` stamp on `updated_at` fires only when the flush
emits an UPDATE, i.e. when some assigned value differs from the stored
one.  A new entry takes the column default `is_active = True`. -/
def set_config (db : Store) (config_key config_value config_type : String)
    (description : Option String) (now : Int) : String × Store :=
  match db.configs.find? (·.config_key == config_key) with
  | some config =>
    let new_config := overwritten_config config config_value config_type description
    let new_config := if new_config = config then new_config
                      else { new_config with updated_at := some now }
    ("Configuration " ++ config_key ++ " updated successfully",
     { db with configs := replace_first (·.config_key == config_key) new_config db.configs })
  | none =>
    let config : SystemConfig :=
      { id := db.nextConfigId, config_key := config_key,
        config_value := config_value, config_type := config_type,
        description := description, is_active := true,
        created_at := now, updated_at := none }
    ("Configuration " ++ config_key ++ " updated successfully",
     { db with configs := db.configs ++ [config],
               nextConfigId := db.nextConfigId + 1 })

/-- One mutating API call, with the wall-clock time of the request where a
timestamp is assigned.  There is no route-update endpoint in the API, so
there is no route-update operation here. -/
inductive Op where
  | create_heat_center (req : HeatCenterCreate) (now : Int)
  | update_heat_center (id : Int) (u : HeatCenterUpdate) (now : Int)
  | delete_heat_center (id : Int)
  | create_demand_site (req : DemandSiteCreate) (now : Int)
  | update_demand_site (id : Int) (u : DemandSiteUpdate) (now : Int)
  | delete_demand_site (id : Int)
  | create_route (req : RouteCreate) (now : Int)
  | delete_route (id : Int)
  | set_config (key value ctype : String) (desc : Option String) (now : Int)
  deriving Repr

/-- The state transition of one mutating request: the handler's new store
on success, the unchanged store when the handler fails (the transaction is
discarded, nothing was committed). -/
def Store.step (db : Store) : Op → Store
  | .create_heat_center req now => (create_heat_center db req now).2
  | .update_heat_center id u now =>
    match update_heat_center db id u now with
    | .ok (_, db2) => db2
    | .error _ => db
  | .delete_heat_center id =>
    match delete_heat_center db id with
    | .ok (_, db2) => db2
    | .error _ => db
  | .create_demand_site req now => (create_demand_site db req now).2
  | .update_demand_site id u now =>
    match update_demand_site db id u now with
    | .ok (_, db2) => db2
    | .error _ => db
  | .delete_demand_site id =>
    match delete_demand_site db id with
    | .ok (_, db2) => db2
    | .error _ => db
  | .create_route req now =>
    match create_route db req now with
    | .ok (_, db2) => db2
    | .error _ => db
  | .delete_route id =>
    match delete_route db id with
    | .ok (_, db2) => db2
    | .error _ => db
  | .set_config key value ctype desc now => (set_config db key value ctype desc now).2

/-- The store reached by running a sequence of requests against a fresh
database. -/
def apply_ops (ops : List Op) : Store := ops.foldl Store.step empty_store

/-- The uniqueness invariant of claim C1: no two live routes share the
(heat_center_id, demand_site_id) pair. -/
def RoutePairsUnique (db : Store) : Prop :=
  (db.routes.map (fun r => (r.heat_center_id, r.demand_site_id))).Nodup

/-! ## Helper lemmas -/

/-- `round2` always produces a value with exactly two decimal places: one
hundred times it is an integer. -/
theorem round2_hundred_mul_den (q : ℚ) : ((100 : ℚ) * round2 q).den = 1 := by
  unfold round2
  rw [mul_comm, div_mul_cancel₀ _ (by norm_num : (100 : ℚ) ≠ 0)]
  exact Rat.den_intCast _

/-- `round2 0 = 0`: the guarded division branches all degrade to `0`. -/
theorem round2_zero : round2 0 = 0 := by decide

/-- Decomposition of a successful `find?` plus the matching `eraseP`: the
list splits around the first match, and `eraseP` drops exactly it. -/
theorem find?_eraseP_decomp {p : α → Bool} :
    ∀ {l : List α} {c : α}, l.find? p = some c →
      ∃ l₁ l₂, l = l₁ ++ c :: l₂ ∧ (∀ b ∈ l₁, ¬ p b) ∧ l.eraseP p = l₁ ++ l₂ := by
  intro l
  induction l with
  | nil => intro c h; simp at h
  | cons x rest ih =>
    intro c h
    by_cases hx : p x
    · refine ⟨[], rest, ?_, by simp, ?_⟩
      · simp only [List.find?_cons, hx] at h
        simp [← Option.some_inj.mp h]
      · simp [List.eraseP_cons, hx]
    · rw [Bool.not_eq_true] at hx
      simp only [List.find?_cons, hx] at h
      obtain ⟨l₁, l₂, hsplit, hall, herase⟩ := ih h
      exact ⟨x :: l₁, l₂, by simp [hsplit], by simpa [hx] using hall,
             by simp [List.eraseP_cons, hx, herase]⟩

/-- Decomposition of a successful `find?` plus the matching
`replace_first`: the first match is swapped for the new element, the rest
of the list is untouched. -/
theorem find?_replace_first_decomp {p : α → Bool} (new : α) :
    ∀ {l : List α} {c : α}, l.find? p = some c →
      ∃ l₁ l₂, l = l₁ ++ c :: l₂ ∧ (∀ b ∈ l₁, ¬ p b) ∧
        replace_first p new l = l₁ ++ new :: l₂ := by
  intro l
  induction l with
  | nil => intro c h; simp at h
  | cons x rest ih =>
    intro c h
    by_cases hx : p x
    · refine ⟨[], rest, ?_, by simp, ?_⟩
      · simp only [List.find?_cons, hx] at h
        simp [← Option.some_inj.mp h]
      · simp [replace_first, hx]
    · rw [Bool.not_eq_true] at hx
      simp only [List.find?_cons, hx] at h
      obtain ⟨l₁, l₂, hsplit, hall, hrepl⟩ := ih h
      exact ⟨x :: l₁, l₂, by simp [hsplit], by simpa [hx] using hall,
             by simp [replace_first, hx, hrepl]⟩

/-! ## Claims -/

/-- C9: in the route list operation a supplied `heat_center_id = 0` or
`demand_site_id = 0`, and in the demand-site list operation a supplied
empty-string `site_type`, are Python-falsy, so the corresponding filter is
not applied at all: the result is exactly the result of the same request
with the parameter absent (the unfiltered page), not the empty list that a
genuine equality filter on a never-assigned identifier would give. -/
theorem falsy_filter_params_ignored :
    (∀ (db : Store) (skip limit : Int) (status : Option RouteStatus) (dsid : Option Int),
      get_routes db skip limit status (some 0) dsid =
        get_routes db skip limit status none dsid)
  ∧ (∀ (db : Store) (skip limit : Int) (status : Option RouteStatus) (hcid : Option Int),
      get_routes db skip limit status hcid (some 0) =
        get_routes db skip limit status hcid none)
  ∧ (∀ (db : Store) (skip limit : Int) (connected_only : Bool),
      get_demand_sites db skip limit connected_only (some "") =
        get_demand_sites db skip limit connected_only none) :=
  ⟨fun _ _ _ _ _ => rfl, fun _ _ _ _ _ => rfl, fun _ _ _ _ => rfl⟩

/-- C10: the on-read coercion of `get_config` dispatches only on the four
type tags `integer`, `float`, `boolean`, `json`; any other tag — in
particular `structured` — falls through to the identity branch and the
stored string is returned verbatim, whatever the stdlib conversion
functions do.  Consequently a store whose only active entry carries an
unrecognized tag is surfaced as the raw string. -/
theorem config_unknown_type_tag_verbatim :
    (∀ (rt : PyRuntime) (config_type config_value : String),
      config_type ∉ (["integer", "float", "boolean", "json"] : List String) →
      coerce_config_value rt config_type config_value = .ok (.str config_value))
  ∧ (∀ (rt : PyRuntime) (entry : SystemConfig)
      (hcs : List HeatCenter) (dss : List DemandSite) (rs : List Route)
      (c1 c2 c3 c4 : Int),
      entry.config_type = "structured" → entry.is_active = true →
      get_config rt ⟨hcs, dss, rs, [entry], c1, c2, c3, c4⟩ =
        .ok [(entry.config_key, .str entry.config_value)]) := by
  constructor
  · intro rt config_type config_value h
    simp only [List.mem_cons, List.not_mem_nil, or_false, not_or] at h
    obtain ⟨h1, h2, h3, h4⟩ := h
    simp [coerce_config_value, h1, h2, h3, h4]
  · intro rt entry hcs dss rs c1 c2 c3 c4 htype hactive
    simp [get_config, hactive, coerce_config_value, htype, dict_set,
          Bind.bind, Except.bind, Pure.pure, Except.pure]

/-- Conversion functions that immediately fail, exercising that the raw
branch never consults them. -/
def rt_failing : PyRuntime :=
  { py_int := fun _ => none, py_float := fun _ => none, json_loads := fun _ => none }

/-- A single active `structured`-tagged config entry. -/
def structured_entry : SystemConfig :=
  { id := 1, config_key := "k", config_value := "v", config_type := "structured",
    description := none, is_active := true, created_at := 0, updated_at := none }

/-- Witness for C10 at the concrete tag `structured`. -/
theorem config_unknown_type_tag_verbatim_witness :
    coerce_config_value rt_failing "structured" "v" = .ok (.str "v")
  ∧ get_config rt_failing ⟨[], [], [], [structured_entry], 1, 1, 1, 2⟩ =
      .ok [("k", .str "v")] :=
  ⟨config_unknown_type_tag_verbatim.1 rt_failing "structured" "v" (by decide),
   config_unknown_type_tag_verbatim.2 rt_failing structured_entry [] [] [] 1 1 1 2 rfl rfl⟩

/-- The 422 error produced for a limit above 1000. -/
def limit_high_error : ApiError :=
  { status_code := 422, detail := "limit: Input should be less than or equal to 1000" }

/-- The 422 error produced for a limit below 1. -/
def limit_low_error : ApiError :=
  { status_code := 422, detail := "limit: Input should be greater than or equal to 1" }

/-- For a non-negative skip, a limit of 5000 fails the `le=1000` bound. -/
theorem validate_pagination_5000 {skip : Int} (h : 0 ≤ skip) :
    validate_pagination skip 5000 = .error limit_high_error := by
  simp [validate_pagination, not_lt.mpr h, limit_high_error]

/-- For a non-negative skip, a limit of 0 fails the `ge=1` bound. -/
theorem validate_pagination_0 {skip : Int} (h : 0 ≤ skip) :
    validate_pagination skip 0 = .error limit_low_error := by
  simp [validate_pagination, not_lt.mpr h, limit_low_error]

/-- C7 (amended): the list operations declare `limit` with
`Query(ge=1, le=1000)`, which the framework enforces by validation, not by
clamping: a request with `limit = 5000` is rejected as invalid
(422, limit must be at most 1000) just as `limit = 0` is rejected
(limit must be at least 1); neither request reaches the store. -/
theorem list_limit_out_of_bounds_rejected :
    ∀ (db : Store) (skip : Int), 0 ≤ skip →
    ∀ (ao co : Bool) (st : Option String) (rs : Option RouteStatus) (hc ds : Option Int),
      get_heat_centers db skip 5000 ao = .error limit_high_error
    ∧ get_demand_sites db skip 5000 co st = .error limit_high_error
    ∧ get_routes db skip 5000 rs hc ds = .error limit_high_error
    ∧ get_heat_centers db skip 0 ao = .error limit_low_error
    ∧ get_demand_sites db skip 0 co st = .error limit_low_error
    ∧ get_routes db skip 0 rs hc ds = .error limit_low_error := by
  intro db skip h ao co st rs hc ds
  refine ⟨?_, ?_, ?_, ?_, ?_, ?_⟩ <;>
    simp [get_heat_centers, get_demand_sites, get_routes,
          validate_pagination_5000 h, validate_pagination_0 h,
          Bind.bind, Except.bind]

/-- C7 counterexample: the claim says a requested limit of 5000 is clamped
to 1000 and the operation succeeds with at most 1000 records; in fact the
request is rejected with a 422 validation error and returns no records. -/
theorem list_limit_5000_not_clamped :
    get_heat_centers empty_store 0 5000 false = .error limit_high_error := by
  rfl

/-- Witness for C7's amended theorem at skip 1 on the demand-site list. -/
theorem list_limit_out_of_bounds_rejected_witness :
    get_demand_sites empty_store 1 5000 false none = .error limit_high_error
  ∧ get_routes empty_store 1 0 none none none = .error limit_low_error := by
  have h := list_limit_out_of_bounds_rejected empty_store 1 (by decide)
    false false none none none none
  exact ⟨h.2.1, h.2.2.2.2.2⟩

/-- C8 (amended): configuration writes are upserts keyed on `config_key`.
When the key resolves to an existing entry, that entry is overwritten in
place — `config_value` and `config_type` unconditionally, `description`
only when the supplied description is truthy (non-`None`, non-empty),
otherwise the prior description is retained — and no other entry changes
and no new entry or history record is added; the key, id, `is_active` and
`created_at` of the entry are untouched, and `updated_at` is stamped with
the request time exactly when some assigned value differs from the
stored one (an all-equal re-write flushes no UPDATE).  When the key is
absent, a new entry is appended with the supplied value, type and
description and the column default `is_active = true`. -/
theorem set_config_upsert :
    ∀ (db : Store) (key value ctype : String) (desc : Option String) (now : Int),
    (∀ c, db.configs.find? (·.config_key == key) = some c →
      ∃ l₁ l₂ c2, db.configs = l₁ ++ c :: l₂
        ∧ (set_config db key value ctype desc now).2.configs = l₁ ++ c2 :: l₂
        ∧ c2.config_value = value
        ∧ c2.config_type = ctype
        ∧ c2.description =
            (if py_truthy_str_opt desc then desc else c.description)
        ∧ c2.config_key = c.config_key
        ∧ c2.id = c.id
        ∧ c2.is_active = c.is_active
        ∧ c2.created_at = c.created_at
        ∧ (overwritten_config c value ctype desc ≠ c → c2.updated_at = some now)
        ∧ (overwritten_config c value ctype desc = c → c2.updated_at = c.updated_at))
  ∧ (db.configs.find? (·.config_key == key) = none →
      (set_config db key value ctype desc now).2.configs =
        db.configs ++
          [{ id := db.nextConfigId, config_key := key, config_value := value,
             config_type := ctype, description := desc, is_active := true,
             created_at := now, updated_at := none }]) := by
  intro db key value ctype desc now
  constructor
  · intro c hfind
    by_cases hch : overwritten_config c value ctype desc = c
    · obtain ⟨l₁, l₂, hsplit, hall, hrepl⟩ :=
        find?_replace_first_decomp (p := (·.config_key == key))
          (overwritten_config c value ctype desc) hfind
      refine ⟨l₁, l₂, overwritten_config c value ctype desc, hsplit, ?_,
        rfl, rfl, rfl, rfl, rfl, rfl, rfl,
        fun hne => absurd hch hne, fun _ => rfl⟩
      simp only [set_config, hfind, if_pos hch]
      exact hrepl
    · obtain ⟨l₁, l₂, hsplit, hall, hrepl⟩ :=
        find?_replace_first_decomp (p := (·.config_key == key))
          { overwritten_config c value ctype desc with updated_at := some now } hfind
      refine ⟨l₁, l₂,
        { overwritten_config c value ctype desc with updated_at := some now },
        hsplit, ?_, rfl, rfl, rfl, rfl, rfl, rfl, rfl,
        fun _ => rfl, fun hee => absurd hee hch⟩
      simp only [set_config, hfind, if_neg hch]
      exact hrepl
  · intro hfind
    simp [set_config, hfind]

/-- The store holding one config entry whose description is `"old"`. -/
def c8_store : Store :=
  (set_config empty_store "k" "v" "string" (some "old") 1).2

/-- C8 counterexample: re-writing key `k` with `description = None` leaves
the stored description at `some "old"` instead of overwriting it with the
supplied argument — the overwrite of the description is conditional, not
unconditional as claimed. -/
theorem set_config_description_not_overwritten :
    ((set_config c8_store "k" "v2" "integer" none 5).2.configs.map
        (·.description)) = [some "old"]
  ∧ (some "old" : Option String) ≠ none := by
  exact ⟨rfl, by decide⟩

/-- Witness for C8's amended theorem: the overwrite branch on `c8_store`
(the new value "v2" differs from the stored "v", so `updated_at` is
stamped while the falsy description keeps the prior one) and the create
branch on the empty store. -/
theorem set_config_upsert_witness :
    ((set_config c8_store "k" "v2" "integer" none 5).2.configs.map
        (fun c => (c.config_value, c.config_type, c.description, c.updated_at)))
      = [("v2", "integer", some "old", some 5)]
  ∧ ((set_config empty_store "k" "v" "string" (some "old") 1).2.configs =
      [{ id := 1, config_key := "k", config_value := "v", config_type := "string",
         description := some "old", is_active := true, created_at := 1,
         updated_at := none }]) := by
  constructor
  · obtain ⟨l₁, l₂, c2, hsplit, hnew, hval, htype, hdesc, hkey, hid, hact, hcre,
      hchg, _⟩ :=
      (set_config_upsert c8_store "k" "v2" "integer" none 5).1
        { id := 1, config_key := "k", config_value := "v", config_type := "string",
          description := some "old", is_active := true, created_at := 1,
          updated_at := none } (by decide)
    have hc : c8_store.configs =
        [{ id := 1, config_key := "k", config_value := "v",
           config_type := "string", description := some "old",
           is_active := true, created_at := 1, updated_at := none }] := by decide
    rw [hc] at hsplit
    cases l₁ with
    | nil =>
      have hl2 : l₂ = [] := by simpa using hsplit
      subst hl2
      rw [hnew]
      simp [hval, htype, hdesc, hchg (by decide), py_truthy_str_opt]
    | cons a t =>
      exfalso
      have hlen := congrArg List.length hsplit
      simp [List.length_append] at hlen
  · exact (set_config_upsert empty_store "k" "v" "string" (some "old") 1).2 (by decide)

/-- A heat center carrying only the fields the overview aggregation reads,
used for concrete instances. -/
def plain_center (i : Int) (cap out : ℚ) : HeatCenter :=
  { id := i, name := "hc", location_lat := 0, location_lng := 0, address := none,
    max_capacity_mw := cap, current_output_mw := out, efficiency_percent := 85,
    fuel_type := none, is_active := true, commissioning_date := none,
    last_maintenance := none, description := none, created_at := 0, updated_at := none }

/-- The spec's concrete overview instance: capacities [45, 75, 35, 25] and
outputs [32.5, 58.2, 28.7, 19.8]. -/
def c5_store : Store :=
  { empty_store with
    heatCenters :=
      [plain_center 1 45 (32.5 : ℚ), plain_center 2 75 (58.2 : ℚ),
       plain_center 3 35 (28.7 : ℚ), plain_center 4 25 (19.8 : ℚ)],
    nextHeatCenterId := 5 }

/-- C5 (amended): `capacity_utilization_percent` equals the rounded ratio
of the output sum to the capacity sum whenever the capacity sum is
positive, and equals 0 whenever the capacity sum is ≤ 0 (in particular
when it is 0) — the guard in the code is `total_capacity > 0`, not
`≠ 0`; on the spec's concrete instance it equals 77.33. -/
theorem overview_capacity_utilization (db : Store) :
    (0 < total_capacity_sum db →
      (get_analytics_overview db).capacity_utilization_percent =
        round2 (current_output_sum db / total_capacity_sum db * 100))
  ∧ (total_capacity_sum db ≤ 0 →
      (get_analytics_overview db).capacity_utilization_percent = 0)
  ∧ (get_analytics_overview c5_store).capacity_utilization_percent = (77.33 : ℚ) := by
  refine ⟨?_, ?_, by decide⟩
  · intro h
    simp [get_analytics_overview, h]
  · intro h
    simp [get_analytics_overview, not_lt.mpr h, round2_zero]

/-- A store reached by one `create_heat_center` call whose (unvalidated)
`max_capacity_mw` is negative. -/
def negative_capacity_store : Store :=
  (create_heat_center empty_store
    { name := "P", location_lat := 0, location_lng := 0,
      max_capacity_mw := -45, current_output_mw := 10 } 0).2

/-- C5 counterexample: on a reachable store whose capacity sum is -45
(nothing validates `max_capacity_mw ≥ 0`), the capacity sum is non-zero,
the claim's formula gives round2(10 / -45 * 100) = -22.22 ≠ 0, yet the
endpoint returns 0 — the claimed equality fails on this store. -/
theorem overview_utilization_negative_capacity :
    total_capacity_sum negative_capacity_store = -45
  ∧ (get_analytics_overview negative_capacity_store).capacity_utilization_percent = 0
  ∧ round2 (current_output_sum negative_capacity_store /
      total_capacity_sum negative_capacity_store * 100) = (-22.22 : ℚ)
  ∧ (-22.22 : ℚ) ≠ 0 := by
  refine ⟨by decide, by decide, by decide, by decide⟩

/-- Witness for C5's amended theorem on the spec's concrete instance,
whose capacity sum 180 is positive. -/
theorem overview_capacity_utilization_witness :
    (get_analytics_overview c5_store).capacity_utilization_percent =
      round2 (current_output_sum c5_store / total_capacity_sum c5_store * 100) :=
  (overview_capacity_utilization c5_store).1 (by decide)

/-- C6: the division-safety policy of the analytics layer.  On the empty
store the overview's utilization, coverage and average-distance fields are
0; every zero denominator degrades to 0 (capacity sum, demand sum, route
count, a center's `max_capacity_mw`, a site's `peak_demand_mw`); and every
percentage field of the three views carries exactly two decimal places
(one hundred times it is an integer).  All three views are total
functions of the store — no division error is possible. -/
theorem analytics_division_safety :
    ((get_analytics_overview empty_store).capacity_utilization_percent = 0
      ∧ (get_analytics_overview empty_store).demand_coverage_percent = 0
      ∧ (get_analytics_overview empty_store).average_route_distance_km = 0)
  ∧ (∀ db : Store,
      (total_capacity_sum db = 0 →
        (get_analytics_overview db).capacity_utilization_percent = 0)
      ∧ (total_demand_sum db = 0 →
        (get_analytics_overview db).demand_coverage_percent = 0)
      ∧ (db.routes = [] →
        (get_analytics_overview db).average_route_distance_km = 0))
  ∧ (∀ (db : Store) (id : Int) (a : HeatCenterAnalytics),
      get_heat_center_analytics db id = .ok a →
      (a.center.max_capacity_mw = 0 → a.capacity_utilization_percent = 0)
      ∧ ((100 : ℚ) * a.capacity_utilization_percent).den = 1)
  ∧ (∀ (db : Store) (id : Int) (a : DemandSiteAnalytics),
      get_demand_site_analytics db id = .ok a →
      (a.site.peak_demand_mw = 0 →
        a.demand_coverage_percent = 0 ∧ a.current_utilization_percent = 0)
      ∧ ((100 : ℚ) * a.demand_coverage_percent).den = 1
      ∧ ((100 : ℚ) * a.current_utilization_percent).den = 1)
  ∧ (∀ db : Store,
      ((100 : ℚ) * (get_analytics_overview db).capacity_utilization_percent).den = 1
      ∧ ((100 : ℚ) * (get_analytics_overview db).demand_coverage_percent).den = 1
      ∧ ((100 : ℚ) * (get_analytics_overview db).average_route_distance_km).den = 1) := by
  refine ⟨⟨by decide, by decide, by decide⟩, ?_, ?_, ?_, ?_⟩
  · intro db
    refine ⟨?_, ?_, ?_⟩
    · intro h
      simp [get_analytics_overview, h, round2_zero]
    · intro h
      simp [get_analytics_overview, h, round2_zero]
    · intro h
      simp [get_analytics_overview, h]
  · intro db id a h
    rw [get_heat_center_analytics] at h
    cases hf : db.heatCenters.find? (·.id == id) with
    | none => rw [hf] at h; exact absurd h (by simp)
    | some c =>
      rw [hf] at h
      simp only [Except.ok.injEq] at h
      subst h
      constructor
      · intro h0
        rw [h0]
        simp [round2_zero]
      · exact round2_hundred_mul_den _
  · intro db id a h
    rw [get_demand_site_analytics] at h
    cases hf : db.demandSites.find? (·.id == id) with
    | none => rw [hf] at h; exact absurd h (by simp)
    | some c =>
      rw [hf] at h
      simp only [Except.ok.injEq] at h
      subst h
      refine ⟨?_, round2_hundred_mul_den _, round2_hundred_mul_den _⟩
      intro h0
      rw [h0]
      simp [round2_zero]
  · intro db
    refine ⟨round2_hundred_mul_den _, round2_hundred_mul_den _, ?_⟩
    by_cases h : db.routes.length > 0
    · simp only [get_analytics_overview, if_pos h]
      exact round2_hundred_mul_den _
    · simp only [get_analytics_overview, if_neg h]
      simp

/-- A store whose single heat center has `max_capacity_mw = 0`. -/
def zero_capacity_store : Store :=
  (create_heat_center empty_store
    { name := "Z", location_lat := 0, location_lng := 0,
      max_capacity_mw := 0, current_output_mw := 0 } 0).2

/-- The analytics record `GET /analytics/heat-center/1` computes on
`zero_capacity_store`. -/
def zero_capacity_analytics : HeatCenterAnalytics :=
  { center :=
      { id := 1, name := "Z", location_lat := 0, location_lng := 0, address := none,
        max_capacity_mw := 0, current_output_mw := 0, efficiency_percent := 85,
        fuel_type := none, is_active := true, commissioning_date := none,
        last_maintenance := none, description := none, created_at := 0,
        updated_at := none },
    capacity_utilization_percent := round2 0,
    connected_demand_mw := 0, number_of_routes := 0, routes := [] }

/-- Witness for C6 on a concrete zero-capacity center: its per-center
analytics resolve and the utilization degrades to 0, and the overview's
zero-capacity branch fires on the same store. -/
theorem analytics_division_safety_witness :
    zero_capacity_analytics.capacity_utilization_percent = 0
  ∧ (get_analytics_overview zero_capacity_store).capacity_utilization_percent = 0 :=
  ⟨(analytics_division_safety.2.2.1 zero_capacity_store 1 zero_capacity_analytics
      rfl).1 (by decide),
   (analytics_division_safety.2.1 zero_capacity_store).1 (by decide)⟩

/-- C2: the failure cases of route creation.  A non-resolving heat-center
id fails 404 "Heat center not found" (this check runs first); with the
heat center resolving, a non-resolving demand-site id fails 404 "Demand
site not found"; with both resolving, an existing route on the same
(heat_center_id, demand_site_id) pair fails 400 (conflict).  In every
failure case the state transition leaves the store unchanged — no route
is added. -/
theorem create_route_error_cases :
    ∀ (db : Store) (req : RouteCreate) (now : Int),
    (db.heatCenters.find? (·.id == req.heat_center_id) = none →
      create_route db req now =
        .error { status_code := 404, detail := "Heat center not found" }
      ∧ db.step (.create_route req now) = db)
  ∧ ((db.heatCenters.find? (·.id == req.heat_center_id)).isSome →
      db.demandSites.find? (·.id == req.demand_site_id) = none →
      create_route db req now =
        .error { status_code := 404, detail := "Demand site not found" }
      ∧ db.step (.create_route req now) = db)
  ∧ ((db.heatCenters.find? (·.id == req.heat_center_id)).isSome →
      (db.demandSites.find? (·.id == req.demand_site_id)).isSome →
      (db.routes.find? (fun r => r.heat_center_id == req.heat_center_id &&
          r.demand_site_id == req.demand_site_id)).isSome →
      create_route db req now =
        .error { status_code := 400,
                 detail := "Route already exists between these locations" }
      ∧ db.step (.create_route req now) = db) := by
  intro db req now
  refine ⟨?_, ?_, ?_⟩
  · intro h
    have he : create_route db req now =
        .error { status_code := 404, detail := "Heat center not found" } := by
      simp only [create_route, h]
    exact ⟨he, by simp [Store.step, he]⟩
  · intro h1 h2
    obtain ⟨c, hc⟩ := Option.isSome_iff_exists.mp h1
    have he : create_route db req now =
        .error { status_code := 404, detail := "Demand site not found" } := by
      simp only [create_route, hc, h2]
    exact ⟨he, by simp [Store.step, he]⟩
  · intro h1 h2 h3
    obtain ⟨c, hc⟩ := Option.isSome_iff_exists.mp h1
    obtain ⟨d, hd⟩ := Option.isSome_iff_exists.mp h2
    obtain ⟨r, hr⟩ := Option.isSome_iff_exists.mp h3
    have he : create_route db req now =
        .error { status_code := 400,
                 detail := "Route already exists between these locations" } := by
      simp only [create_route, hc, hd, hr]
    exact ⟨he, by simp [Store.step, he]⟩

/-- A store with one heat center (id 1) and one demand site (id 1) and one
route between them. -/
def one_route_store : Store :=
  let s1 := (create_heat_center empty_store
    { name := "H", location_lat := 0, location_lng := 0,
      max_capacity_mw := 50 } 0).2
  let s2 := (create_demand_site s1
    { name := "D", location_lat := 0, location_lng := 0,
      peak_demand_mw := 10 } 0).2
  let res := create_route s2
    { heat_center_id := 1, demand_site_id := 1,
      distance_km := 3, max_flow_capacity_mw := 5 } 0
  match res with
  | .ok (_, s3) => s3
  | .error _ => s2

/-- A route request naming a missing heat center. -/
def req_bad_center : RouteCreate :=
  { heat_center_id := 9, demand_site_id := 1, distance_km := 1, max_flow_capacity_mw := 1 }

/-- A route request naming a missing demand site. -/
def req_bad_site : RouteCreate :=
  { heat_center_id := 1, demand_site_id := 9, distance_km := 1, max_flow_capacity_mw := 1 }

/-- A route request duplicating the pair already connected in
`one_route_store`. -/
def req_duplicate : RouteCreate :=
  { heat_center_id := 1, demand_site_id := 1, distance_km := 1, max_flow_capacity_mw := 1 }

/-- Witness for C2: all three failure branches at concrete inputs on
`one_route_store`. -/
theorem create_route_error_cases_witness :
    (create_route one_route_store req_bad_center 7 =
      .error { status_code := 404, detail := "Heat center not found" })
  ∧ (create_route one_route_store req_bad_site 7 =
      .error { status_code := 404, detail := "Demand site not found" })
  ∧ (create_route one_route_store req_duplicate 7 =
      .error { status_code := 400,
               detail := "Route already exists between these locations" })
  ∧ one_route_store.step (.create_route req_duplicate 7) = one_route_store :=
  ⟨((create_route_error_cases one_route_store req_bad_center 7).1 (by decide)).1,
   ((create_route_error_cases one_route_store req_bad_site 7).2.1
      (by decide) (by decide)).1,
   ((create_route_error_cases one_route_store req_duplicate 7).2.2
      (by decide) (by decide) (by decide)).1,
   ((create_route_error_cases one_route_store req_duplicate 7).2.2
      (by decide) (by decide) (by decide)).2⟩

/-- The frame property of a single column under a partial update: a
supplied value is applied verbatim; an absent field keeps its prior
value. -/
def FieldFrame (supplied : Option α) (old new : α) : Prop :=
  (∀ v, supplied = some v → new = v) ∧ (supplied = none → new = old)

/-- `Option.getD` realizes the frame property. -/
theorem field_frame_getD (o : Option α) (old : α) : FieldFrame o old (o.getD old) := by
  constructor
  · intro v h; simp [h]
  · intro h; simp [h]

/-- C4 (amended): partial updates of a supply point or a demand point on
a resolving id.  Exactly the supplied fields take the supplied values and
every unsupplied field keeps its prior value; the id and `created_at` are
unchanged; `updated_at` is stamped with the request time exactly when
some supplied value differs from the stored one — a partial update all
of whose supplied values equal the stored ones flushes no UPDATE and
leaves `updated_at` unchanged; only the targeted record changes — the
rest of the updated table and all other tables are untouched. -/
theorem partial_update_frame :
    (∀ (db : Store) (center_id : Int) (u : HeatCenterUpdate) (now : Int)
       (c : HeatCenter) (c2 : HeatCenter) (db2 : Store),
      db.heatCenters.find? (·.id == center_id) = some c →
      update_heat_center db center_id u now = .ok (c2, db2) →
      (∃ l₁ l₂, db.heatCenters = l₁ ++ c :: l₂ ∧ db2.heatCenters = l₁ ++ c2 :: l₂)
      ∧ db2.demandSites = db.demandSites
      ∧ db2.routes = db.routes
      ∧ db2.configs = db.configs
      ∧ FieldFrame u.name c.name c2.name
      ∧ FieldFrame u.location_lat c.location_lat c2.location_lat
      ∧ FieldFrame u.location_lng c.location_lng c2.location_lng
      ∧ FieldFrame u.address c.address c2.address
      ∧ FieldFrame u.max_capacity_mw c.max_capacity_mw c2.max_capacity_mw
      ∧ FieldFrame u.current_output_mw c.current_output_mw c2.current_output_mw
      ∧ FieldFrame u.efficiency_percent c.efficiency_percent c2.efficiency_percent
      ∧ FieldFrame u.fuel_type c.fuel_type c2.fuel_type
      ∧ FieldFrame u.is_active c.is_active c2.is_active
      ∧ FieldFrame u.commissioning_date c.commissioning_date c2.commissioning_date
      ∧ FieldFrame u.last_maintenance c.last_maintenance c2.last_maintenance
      ∧ FieldFrame u.description c.description c2.description
      ∧ c2.id = c.id
      ∧ c2.created_at = c.created_at
      ∧ (apply_heat_center_update c u ≠ c → c2.updated_at = some now)
      ∧ (apply_heat_center_update c u = c → c2.updated_at = c.updated_at))
  ∧ (∀ (db : Store) (site_id : Int) (u : DemandSiteUpdate) (now : Int)
       (s : DemandSite) (s2 : DemandSite) (db2 : Store),
      db.demandSites.find? (·.id == site_id) = some s →
      update_demand_site db site_id u now = .ok (s2, db2) →
      (∃ l₁ l₂, db.demandSites = l₁ ++ s :: l₂ ∧ db2.demandSites = l₁ ++ s2 :: l₂)
      ∧ db2.heatCenters = db.heatCenters
      ∧ db2.routes = db.routes
      ∧ db2.configs = db.configs
      ∧ FieldFrame u.name s.name s2.name
      ∧ FieldFrame u.location_lat s.location_lat s2.location_lat
      ∧ FieldFrame u.location_lng s.location_lng s2.location_lng
      ∧ FieldFrame u.address s.address s2.address
      ∧ FieldFrame u.site_type s.site_type s2.site_type
      ∧ FieldFrame u.peak_demand_mw s.peak_demand_mw s2.peak_demand_mw
      ∧ FieldFrame u.current_demand_mw s.current_demand_mw s2.current_demand_mw
      ∧ FieldFrame u.annual_consumption_mwh s.annual_consumption_mwh s2.annual_consumption_mwh
      ∧ FieldFrame u.is_connected s.is_connected s2.is_connected
      ∧ FieldFrame u.connection_date s.connection_date s2.connection_date
      ∧ FieldFrame u.priority_level s.priority_level s2.priority_level
      ∧ FieldFrame u.floor_area_sqm s.floor_area_sqm s2.floor_area_sqm
      ∧ FieldFrame u.building_age_years s.building_age_years s2.building_age_years
      ∧ FieldFrame u.insulation_rating s.insulation_rating s2.insulation_rating
      ∧ FieldFrame u.description s.description s2.description
      ∧ s2.id = s.id
      ∧ s2.created_at = s.created_at
      ∧ (apply_demand_site_update s u ≠ s → s2.updated_at = some now)
      ∧ (apply_demand_site_update s u = s → s2.updated_at = s.updated_at)) := by
  constructor
  · intro db center_id u now c c2 db2 hfind heq
    simp only [update_heat_center, hfind] at heq
    by_cases hch : apply_heat_center_update c u = c
    · rw [if_pos hch] at heq
      simp only [Except.ok.injEq, Prod.mk.injEq] at heq
      obtain ⟨rfl, rfl⟩ := heq
      obtain ⟨l₁, l₂, hsplit, hall, hrepl⟩ :=
        find?_replace_first_decomp (apply_heat_center_update c u) hfind
      exact ⟨⟨l₁, l₂, hsplit, hrepl⟩, rfl, rfl, rfl,
        field_frame_getD _ _, field_frame_getD _ _, field_frame_getD _ _,
        field_frame_getD _ _, field_frame_getD _ _, field_frame_getD _ _,
        field_frame_getD _ _, field_frame_getD _ _, field_frame_getD _ _,
        field_frame_getD _ _, field_frame_getD _ _, field_frame_getD _ _,
        rfl, rfl, fun hne => absurd hch hne, fun _ => rfl⟩
    · rw [if_neg hch] at heq
      simp only [Except.ok.injEq, Prod.mk.injEq] at heq
      obtain ⟨rfl, rfl⟩ := heq
      obtain ⟨l₁, l₂, hsplit, hall, hrepl⟩ :=
        find?_replace_first_decomp
          { apply_heat_center_update c u with updated_at := some now } hfind
      exact ⟨⟨l₁, l₂, hsplit, hrepl⟩, rfl, rfl, rfl,
        field_frame_getD _ _, field_frame_getD _ _, field_frame_getD _ _,
        field_frame_getD _ _, field_frame_getD _ _, field_frame_getD _ _,
        field_frame_getD _ _, field_frame_getD _ _, field_frame_getD _ _,
        field_frame_getD _ _, field_frame_getD _ _, field_frame_getD _ _,
        rfl, rfl, fun _ => rfl, fun hee => absurd hee hch⟩
  · intro db site_id u now w s2 db2 hfind heq
    simp only [update_demand_site, hfind] at heq
    by_cases hch : apply_demand_site_update w u = w
    · rw [if_pos hch] at heq
      simp only [Except.ok.injEq, Prod.mk.injEq] at heq
      obtain ⟨rfl, rfl⟩ := heq
      obtain ⟨l₁, l₂, hsplit, hall, hrepl⟩ :=
        find?_replace_first_decomp (apply_demand_site_update w u) hfind
      exact ⟨⟨l₁, l₂, hsplit, hrepl⟩, rfl, rfl, rfl,
        field_frame_getD _ _, field_frame_getD _ _, field_frame_getD _ _,
        field_frame_getD _ _, field_frame_getD _ _, field_frame_getD _ _,
        field_frame_getD _ _, field_frame_getD _ _, field_frame_getD _ _,
        field_frame_getD _ _, field_frame_getD _ _, field_frame_getD _ _,
        field_frame_getD _ _, field_frame_getD _ _, field_frame_getD _ _,
        rfl, rfl, fun hne => absurd hch hne, fun _ => rfl⟩
    · rw [if_neg hch] at heq
      simp only [Except.ok.injEq, Prod.mk.injEq] at heq
      obtain ⟨rfl, rfl⟩ := heq
      obtain ⟨l₁, l₂, hsplit, hall, hrepl⟩ :=
        find?_replace_first_decomp
          { apply_demand_site_update w u with updated_at := some now } hfind
      exact ⟨⟨l₁, l₂, hsplit, hrepl⟩, rfl, rfl, rfl,
        field_frame_getD _ _, field_frame_getD _ _, field_frame_getD _ _,
        field_frame_getD _ _, field_frame_getD _ _, field_frame_getD _ _,
        field_frame_getD _ _, field_frame_getD _ _, field_frame_getD _ _,
        field_frame_getD _ _, field_frame_getD _ _, field_frame_getD _ _,
        field_frame_getD _ _, field_frame_getD _ _, field_frame_getD _ _,
        rfl, rfl, fun _ => rfl, fun hee => absurd hee hch⟩

/-- The create request behind the C4 witness store. -/
def upd_create_req : HeatCenterCreate :=
  { name := "H", location_lat := 1, location_lng := 2,
    max_capacity_mw := 50, current_output_mw := 5 }

/-- The single-supply-point store the C4 witness updates. -/
def upd_store : Store := (create_heat_center empty_store upd_create_req 0).2

/-- The record as created, before the update. -/
def upd_old : HeatCenter := (create_heat_center empty_store upd_create_req 0).1

/-- A partial update supplying only `name` and `current_output_mw`, with
values differing from the stored ones. -/
def upd_req : HeatCenterUpdate := { name := some "H2", current_output_mw := some 7 }

/-- A partial update that re-supplies `name` with its stored value. -/
def upd_noop_req : HeatCenterUpdate := { name := some "H" }

/-- The record after the update with `upd_req`. -/
def upd_new : HeatCenter :=
  { id := 1, name := "H2", location_lat := 1, location_lng := 2, address := none,
    max_capacity_mw := 50, current_output_mw := 7, efficiency_percent := 85,
    fuel_type := none, is_active := true, commissioning_date := none,
    last_maintenance := none, description := none, created_at := 0,
    updated_at := some 9 }

/-- The store after the update with `upd_req`. -/
def upd_db2 : Store := { upd_store with heatCenters := [upd_new] }

/-- C4 counterexample: a partial update on a resolving id whose one
supplied field carries the currently stored value ("H", the stored name)
flushes no UPDATE, so `updated_at` does not advance — it stays `none`,
the value it had before the request, not the request time 9. -/
theorem partial_update_no_change_updated_at :
    upd_noop_req.name = some "H"
  ∧ upd_old.name = "H"
  ∧ upd_old.updated_at = none
  ∧ (update_heat_center upd_store 1 upd_noop_req 9).map (fun p => p.1.updated_at) =
      .ok none :=
  ⟨rfl, rfl, rfl, rfl⟩

/-- Witness for C4's amended theorem: updating supply point 1 of
`upd_store` with `upd_req` at time 9 applies the two supplied fields,
keeps `max_capacity_mw` and `created_at`, and — the supplied values
differing from the stored ones — stamps `updated_at`. -/
theorem partial_update_frame_witness :
    upd_new.name = "H2"
  ∧ upd_new.current_output_mw = 7
  ∧ upd_new.max_capacity_mw = upd_old.max_capacity_mw
  ∧ upd_new.created_at = upd_old.created_at
  ∧ upd_new.updated_at = some 9 := by
  obtain ⟨_, _, _, _, hname, _, _, _, hcap, hout, _, _, _, _, _, _, _,
          hcreated, hupd, _⟩ :=
    partial_update_frame.1 upd_store 1 upd_req 9 upd_old upd_new upd_db2
      (by decide) rfl
  exact ⟨hname.1 _ rfl, hout.1 _ rfl, hcap.2 rfl, hcreated, hupd (by decide)⟩

/-- C3: deletion semantics.  For a supply point or demand point whose id
resolves: if at least one route references the id the delete fails 400
(conflict) and the state transition leaves the whole store unchanged; if
no route references it the delete succeeds and removes exactly that
record (the rest of its table, and every other table, unchanged).  A
route whose id resolves is always deleted, removing exactly it. -/
theorem delete_reference_guard :
    (∀ (db : Store) (center_id : Int) (c : HeatCenter),
      db.heatCenters.find? (·.id == center_id) = some c →
      ((db.routes.filter (·.heat_center_id == center_id)).length > 0 →
        delete_heat_center db center_id =
          .error { status_code := 400,
                   detail := "Cannot delete heat center with active routes" }
        ∧ db.step (.delete_heat_center center_id) = db)
      ∧ ((db.routes.filter (·.heat_center_id == center_id)).length = 0 →
        ∃ l₁ l₂, db.heatCenters = l₁ ++ c :: l₂
          ∧ delete_heat_center db center_id =
              .ok ("Heat center deleted successfully",
                   { db with heatCenters := l₁ ++ l₂ })))
  ∧ (∀ (db : Store) (site_id : Int) (s : DemandSite),
      db.demandSites.find? (·.id == site_id) = some s →
      ((db.routes.filter (·.demand_site_id == site_id)).length > 0 →
        delete_demand_site db site_id =
          .error { status_code := 400,
                   detail := "Cannot delete demand site with active routes" }
        ∧ db.step (.delete_demand_site site_id) = db)
      ∧ ((db.routes.filter (·.demand_site_id == site_id)).length = 0 →
        ∃ l₁ l₂, db.demandSites = l₁ ++ s :: l₂
          ∧ delete_demand_site db site_id =
              .ok ("Demand site deleted successfully",
                   { db with demandSites := l₁ ++ l₂ })))
  ∧ (∀ (db : Store) (route_id : Int) (r : Route),
      db.routes.find? (·.id == route_id) = some r →
      ∃ l₁ l₂, db.routes = l₁ ++ r :: l₂
        ∧ delete_route db route_id =
            .ok ("Route deleted successfully", { db with routes := l₁ ++ l₂ })) := by
  refine ⟨?_, ?_, ?_⟩
  · intro db center_id c hfind
    constructor
    · intro hpos
      have he : delete_heat_center db center_id =
          .error { status_code := 400,
                   detail := "Cannot delete heat center with active routes" } := by
        simp [delete_heat_center, hfind, hpos]
      exact ⟨he, by simp [Store.step, he]⟩
    · intro hzero
      obtain ⟨l₁, l₂, hsplit, hall, herase⟩ := find?_eraseP_decomp hfind
      refine ⟨l₁, l₂, hsplit, ?_⟩
      simp [delete_heat_center, hfind, hzero, herase]
  · intro db site_id s hfind
    constructor
    · intro hpos
      have he : delete_demand_site db site_id =
          .error { status_code := 400,
                   detail := "Cannot delete demand site with active routes" } := by
        simp [delete_demand_site, hfind, hpos]
      exact ⟨he, by simp [Store.step, he]⟩
    · intro hzero
      obtain ⟨l₁, l₂, hsplit, hall, herase⟩ := find?_eraseP_decomp hfind
      refine ⟨l₁, l₂, hsplit, ?_⟩
      simp [delete_demand_site, hfind, hzero, herase]
  · intro db route_id r hfind
    obtain ⟨l₁, l₂, hsplit, hall, herase⟩ := find?_eraseP_decomp hfind
    refine ⟨l₁, l₂, hsplit, ?_⟩
    simp [delete_route, hfind, herase]

/-- A store with a single unreferenced heat center. -/
def lone_center_store : Store :=
  (create_heat_center empty_store
    { name := "L", location_lat := 0, location_lng := 0, max_capacity_mw := 1 } 0).2

/-- The route record living in `one_route_store`. -/
def the_route : Route :=
  { id := 1, heat_center_id := 1, demand_site_id := 1, distance_km := 3,
    pipe_diameter_mm := none, max_flow_capacity_mw := 5, current_flow_mw := 0,
    supply_temp_celsius := 80, return_temp_celsius := 40, pressure_bar := 16,
    heat_loss_percent := 2, installation_year := none, pipe_material := none,
    insulation_type := none, status := RouteStatus.ACTIVE, is_bidirectional := false,
    maintenance_due := none, construction_cost := none,
    annual_maintenance_cost := none, created_at := 0, updated_at := none }

/-- Witness for C3: the referenced heat center of `one_route_store` cannot
be deleted and the store is unchanged; the unreferenced center of
`lone_center_store` is deleted; the route of `one_route_store` is
deleted. -/
theorem delete_reference_guard_witness :
    (delete_heat_center one_route_store 1 =
      .error { status_code := 400,
               detail := "Cannot delete heat center with active routes" })
  ∧ one_route_store.step (.delete_heat_center 1) = one_route_store
  ∧ delete_heat_center lone_center_store 1 =
      .ok ("Heat center deleted successfully",
           { lone_center_store with heatCenters := [] })
  ∧ delete_route one_route_store 1 =
      .ok ("Route deleted successfully", { one_route_store with routes := [] }) := by
  have hconf := (delete_reference_guard.1 one_route_store 1
    ((create_heat_center empty_store
      { name := "H", location_lat := 0, location_lng := 0,
        max_capacity_mw := 50 } 0).1) (by decide)).1 (by decide)
  refine ⟨?_, hconf.2, ?_, ?_⟩
  · exact hconf.1
  · obtain ⟨l₁, l₂, hsplit, hok⟩ := (delete_reference_guard.1 lone_center_store 1
      ((create_heat_center empty_store
        { name := "L", location_lat := 0, location_lng := 0,
          max_capacity_mw := 1 } 0).1) (by decide)).2 (by decide)
    have hc : lone_center_store.heatCenters =
        [(create_heat_center empty_store
          { name := "L", location_lat := 0, location_lng := 0,
            max_capacity_mw := 1 } 0).1] := by decide
    rw [hc] at hsplit
    cases l₁ with
    | nil =>
      have hl2 : l₂ = [] := by simpa using hsplit
      subst hl2
      simpa using hok
    | cons a t =>
      exfalso
      have hlen := congrArg List.length hsplit
      simp [List.length_append] at hlen
  · obtain ⟨l₁, l₂, hsplit, hok⟩ :=
      delete_reference_guard.2.2 one_route_store 1 the_route (by decide)
    have hc : one_route_store.routes = [the_route] := by decide
    rw [hc] at hsplit
    cases l₁ with
    | nil =>
      have hl2 : l₂ = [] := by simpa using hsplit
      subst hl2
      simpa using hok
    | cons a t =>
      exfalso
      have hlen := congrArg List.length hsplit
      simp [List.length_append] at hlen

/-- A successful heat-center update leaves the route table unchanged. -/
theorem update_heat_center_routes_eq {db : Store} {id : Int} {u : HeatCenterUpdate}
    {now : Int} {c : HeatCenter} {db2 : Store}
    (h : update_heat_center db id u now = .ok (c, db2)) : db2.routes = db.routes := by
  simp only [update_heat_center] at h
  cases hf : db.heatCenters.find? (·.id == id) <;> rw [hf] at h
  · exact absurd h (by simp)
  · simp only [Except.ok.injEq, Prod.mk.injEq] at h
    rw [← h.2]

/-- A successful demand-site update leaves the route table unchanged. -/
theorem update_demand_site_routes_eq {db : Store} {id : Int} {u : DemandSiteUpdate}
    {now : Int} {s : DemandSite} {db2 : Store}
    (h : update_demand_site db id u now = .ok (s, db2)) : db2.routes = db.routes := by
  simp only [update_demand_site] at h
  cases hf : db.demandSites.find? (·.id == id) <;> rw [hf] at h
  · exact absurd h (by simp)
  · simp only [Except.ok.injEq, Prod.mk.injEq] at h
    rw [← h.2]

/-- A successful heat-center delete leaves the route table unchanged. -/
theorem delete_heat_center_routes_eq {db : Store} {id : Int} {msg : String}
    {db2 : Store} (h : delete_heat_center db id = .ok (msg, db2)) :
    db2.routes = db.routes := by
  simp only [delete_heat_center] at h
  cases hf : db.heatCenters.find? (·.id == id)
  · simp only [hf] at h
    exact absurd h (by simp)
  · simp only [hf] at h
    split at h
    · exact absurd h (by simp)
    · simp only [Except.ok.injEq, Prod.mk.injEq] at h
      rw [← h.2]

/-- A successful demand-site delete leaves the route table unchanged. -/
theorem delete_demand_site_routes_eq {db : Store} {id : Int} {msg : String}
    {db2 : Store} (h : delete_demand_site db id = .ok (msg, db2)) :
    db2.routes = db.routes := by
  simp only [delete_demand_site] at h
  cases hf : db.demandSites.find? (·.id == id)
  · simp only [hf] at h
    exact absurd h (by simp)
  · simp only [hf] at h
    split at h
    · exact absurd h (by simp)
    · simp only [Except.ok.injEq, Prod.mk.injEq] at h
      rw [← h.2]

/-- A successful route creation appends exactly one route carrying the
requested endpoint pair, and only fires when no existing route carries
that pair. -/
theorem create_route_routes_eq {db : Store} {req : RouteCreate} {now : Int}
    {r : Route} {db2 : Store} (h : create_route db req now = .ok (r, db2)) :
    db2.routes = db.routes ++ [r]
    ∧ r.heat_center_id = req.heat_center_id
    ∧ r.demand_site_id = req.demand_site_id
    ∧ db.routes.find? (fun x => x.heat_center_id == req.heat_center_id &&
        x.demand_site_id == req.demand_site_id) = none := by
  simp only [create_route] at h
  cases hf1 : db.heatCenters.find? (·.id == req.heat_center_id)
  · simp only [hf1] at h
    exact absurd h (by simp)
  · simp only [hf1] at h
    cases hf2 : db.demandSites.find? (·.id == req.demand_site_id)
    · simp only [hf2] at h
      exact absurd h (by simp)
    · simp only [hf2] at h
      cases hf3 : db.routes.find? (fun x =>
          x.heat_center_id == req.heat_center_id &&
          x.demand_site_id == req.demand_site_id)
      · simp only [hf3] at h
        simp only [Except.ok.injEq, Prod.mk.injEq] at h
        obtain ⟨hr, hdb⟩ := h
        exact ⟨by rw [← hdb, ← hr], by rw [← hr], by rw [← hr], rfl⟩
      · simp only [hf3] at h
        exact absurd h (by simp)

/-- A successful route delete erases the first route with the given id. -/
theorem delete_route_routes_eq {db : Store} {id : Int} {msg : String}
    {db2 : Store} (h : delete_route db id = .ok (msg, db2)) :
    db2.routes = db.routes.eraseP (·.id == id) := by
  simp only [delete_route] at h
  cases hf : db.routes.find? (·.id == id) <;> rw [hf] at h
  · exact absurd h (by simp)
  · simp only [Except.ok.injEq, Prod.mk.injEq] at h
    rw [← h.2]

/-- A configuration write never touches the route table. -/
theorem set_config_routes_eq (db : Store) (key value ctype : String)
    (desc : Option String) (now : Int) :
    (set_config db key value ctype desc now).2.routes = db.routes := by
  simp only [set_config]
  cases hf : db.configs.find? (·.config_key == key) <;> simp [hf]

/-- Every single mutating request preserves uniqueness of the
(heat_center_id, demand_site_id) pairs over the live route set. -/
theorem step_preserves_route_pairs_unique (db : Store) (op : Op)
    (h : RoutePairsUnique db) : RoutePairsUnique (db.step op) := by
  cases op with
  | create_heat_center req now => exact h
  | create_demand_site req now => exact h
  | set_config key value ctype desc now =>
    simp only [Store.step]
    unfold RoutePairsUnique
    rw [set_config_routes_eq]
    exact h
  | update_heat_center id u now =>
    simp only [Store.step]
    cases he : update_heat_center db id u now with
    | error e => exact h
    | ok p =>
      obtain ⟨c, db2⟩ := p
      show RoutePairsUnique db2
      unfold RoutePairsUnique
      rw [update_heat_center_routes_eq he]
      exact h
  | update_demand_site id u now =>
    simp only [Store.step]
    cases he : update_demand_site db id u now with
    | error e => exact h
    | ok p =>
      obtain ⟨w, db2⟩ := p
      show RoutePairsUnique db2
      unfold RoutePairsUnique
      rw [update_demand_site_routes_eq he]
      exact h
  | delete_heat_center id =>
    simp only [Store.step]
    cases he : delete_heat_center db id with
    | error e => exact h
    | ok p =>
      obtain ⟨msg, db2⟩ := p
      show RoutePairsUnique db2
      unfold RoutePairsUnique
      rw [delete_heat_center_routes_eq he]
      exact h
  | delete_demand_site id =>
    simp only [Store.step]
    cases he : delete_demand_site db id with
    | error e => exact h
    | ok p =>
      obtain ⟨msg, db2⟩ := p
      show RoutePairsUnique db2
      unfold RoutePairsUnique
      rw [delete_demand_site_routes_eq he]
      exact h
  | delete_route id =>
    simp only [Store.step]
    cases he : delete_route db id with
    | error e => exact h
    | ok p =>
      obtain ⟨msg, db2⟩ := p
      show RoutePairsUnique db2
      unfold RoutePairsUnique
      rw [delete_route_routes_eq he]
      exact List.Nodup.sublist ((List.eraseP_sublist _).map _) h
  | create_route req now =>
    simp only [Store.step]
    cases he : create_route db req now with
    | error e => exact h
    | ok p =>
      obtain ⟨r, db2⟩ := p
      show RoutePairsUnique db2
      obtain ⟨hroutes, hrh, hrd, hdup⟩ := create_route_routes_eq he
      unfold RoutePairsUnique
      rw [hroutes, List.map_append]
      rw [List.nodup_append]
      refine ⟨h, by simp, ?_⟩
      intro a ha hb
      simp only [List.map_cons, List.map_nil, List.mem_singleton] at hb
      subst hb
      obtain ⟨x, hx, hfx⟩ := List.mem_map.mp ha
      rw [List.find?_eq_none] at hdup
      have hx1 : x.heat_center_id = r.heat_center_id := congrArg Prod.fst hfx
      have hx2 : x.demand_site_id = r.demand_site_id := congrArg Prod.snd hfx
      exact hdup x hx (by simp [hx1, hx2, hrh, hrd])

/-- C1: starting from the empty store, after any sequence of API requests
(route creation with its duplicate-pair check, route deletion, and the
remaining operations, none of which updates a route), at most one live
route exists per (heat_center_id, demand_site_id) pair. -/
theorem route_pairs_unique_reachable (ops : List Op) :
    RoutePairsUnique (apply_ops ops) := by
  have hgen : ∀ (l : List Op) (db : Store), RoutePairsUnique db →
      RoutePairsUnique (l.foldl Store.step db) := by
    intro l
    induction l with
    | nil => intro db hdb; exact hdb
    | cons op rest ih =>
      intro db hdb
      exact ih _ (step_preserves_route_pairs_unique db op hdb)
  exact hgen ops empty_store (by simp [RoutePairsUnique, empty_store])
